import Mathlib

/-!
Verification of the LuPulse backend (`index.js`): the authentication and
authorization gate (token codec, session resolver, role checks), the notice
visibility filter, the user role-change / deletion endpoints, and signup.

Modelling conventions (shallow embedding of the JavaScript source):
- A JavaScript object's possibly-absent properties are `Option`-typed fields;
  reading an absent property yields `undefined`, embedded as `none`.
- MongoDB documents are Lean structures; `findOne {email}` is
  `List.find?` by string equality on the email field; `updateOne` with `$set`
  updates the first matching document and reports `modifiedCount = 0` when the
  stored value already equals the new one; `deleteOne` removes the first match.
- In a MongoDB query built by the Node driver, a JavaScript `undefined` inside
  a `$in` list is serialized as BSON `null` (the driver's default
  `ignoreUndefined` is false), and `$in` containing `null` matches documents
  whose field is `null` or absent; both are embedded as `none`.
- HTTP outcomes are the numeric status codes the source writes
  (`res.status(...)`); middleware chains are `Except Nat` (the error carries
  the status a rejecting middleware responds with).
-/

namespace LuPulse

/-- JavaScript `v || d` for a possibly-absent string `v`: `undefined` and the
empty string are falsy, so both fall through to the default. Used for
`user.adminRole || "user"` in `verifyToken` (index.js:105). -/
def jsOrStr (v : Option String) (d : String) : String :=
  match v with
  | none => d
  | some s => if s = "" then d else s

/-- A document of the `Users` collection. Field order and names follow the
`userData` object built by `/signup` (index.js:223-233); `uid` and
`emailVerified` additionally appear because `/login` reads them off the stored
record (index.js:163-165). All fields other than the lookup key `email` may be
absent in a stored document. -/
structure User where
  fullName : Option String
  id : Option String
  email : String
  userType : Option String
  department : Option String
  image : Option String
  designation : Option String
  createdAt : Option Nat
  adminRole : Option String
  uid : Option String
  emailVerified : Option Bool
deriving DecidableEq

/-- The claims payload signed into the token by `/login`
(index.js:161-171): `{uid, email, emailVerified, adminRole, department}`. -/
structure Claims where
  uid : Option String
  email : String
  emailVerified : Option Bool
  adminRole : Option String
  department : Option String
deriving DecidableEq

/-- Modelled from the spec: the Token Codec's credential (section 4.1) — the
codec itself is the external `jsonwebtoken` library, not repository code. A
token carries the claims, an absolute expiry (issuance time + ttl), and a
signature, embedded as the secret it was signed with. -/
structure Token where
  claims : Claims
  expiry : Nat
  sig : Nat
deriving DecidableEq

/-- Modelled from the spec: `issue(claims, secret, ttl) -> token` (section
4.1), the `jwt.sign` call of `/login` with `expiresIn` one hour
(index.js:161-171). -/
def issue (c : Claims) (secret : Nat) (ttl : Nat) (now : Nat) : Token :=
  { claims := c, expiry := now + ttl, sig := secret }

/-- Modelled from the spec: `verify(token, secret) -> claims | Invalid`
(section 4.1), the `jwt.verify` call (index.js:87). Verification fails
exactly when the signature does not match the secret or the current time
exceeds the embedded expiry. -/
def verify (t : Token) (secret : Nat) (now : Nat) : Option Claims :=
  if t.sig = secret ∧ now ≤ t.expiry then some t.claims else none

/-- The request-scoped identity `req.user` built by `verifyToken`
(index.js:103-107). The source copies exactly three properties off the freshly
looked-up user record: `email`, `adminRole` (defaulted to `"user"` via `||`),
and `department`. -/
structure Identity where
  email : String
  adminRole : String
  department : Option String
deriving DecidableEq

/-- JavaScript property access `req.user.userType`, as performed by the
`/notices` handler (index.js:493). The `req.user` object built by
`verifyToken` (index.js:103-107) has no `userType` property, so this access
yields `undefined`. -/
def Identity.userType (_ : Identity) : Option String := none

/-- The `verifyToken` middleware (index.js:78-117). Outcomes: missing cookie →
401; codec verification failure → 403; no user record matching the claimed
email → 404; otherwise the identity context is produced and the chain
continues. (The catch-all 500 on a storage exception is outside this pure
model: the lookup is a total function on the database list.) -/
def verifyToken (cookieToken : Option Token) (secret : Nat) (now : Nat)
    (db : List User) : Except Nat Identity :=
  match cookieToken with
  | none => .error 401
  | some t =>
    match verify t secret now with
    | none => .error 403
    | some decoded =>
      match db.find? (fun u => u.email = decoded.email) with
      | none => .error 404
      | some u =>
        .ok { email := u.email
              adminRole := jsOrStr u.adminRole "user"
              department := u.department }

/-- The `verifyAdmin` middleware (index.js:120-130): rejects with 403 unless
`req.user` exists and its `adminRole` is `"admin"` or `"superadmin"`. -/
def verifyAdmin (u : Option Identity) : Except Nat Unit :=
  match u with
  | none => .error 403
  | some i =>
    if i.adminRole ≠ "admin" ∧ i.adminRole ≠ "superadmin" then .error 403
    else .ok ()

/-- The `verifySuperAdmin` middleware (index.js:133-140): rejects with 403
unless `req.user` exists and its `adminRole` is `"superadmin"`. -/
def verifySuperAdmin (u : Option Identity) : Except Nat Unit :=
  match u with
  | none => .error 403
  | some i =>
    if i.adminRole ≠ "superadmin" then .error 403
    else .ok ()

/-- A document of the `Notices` collection, shaped as the `newNotice` object
built by `POST /notices` (index.js:535-544). Every field may be absent in a
stored document. -/
structure Notice where
  title : Option String
  category : Option String
  description : Option String
  image : Option String
  date : Option String
  targetAudience : Option String
  department : Option String
  createdAt : Option Nat
deriving DecidableEq

/-- The request body fields `POST /notices` destructures (index.js:512-520). -/
structure NoticeBody where
  title : Option String
  category : Option String
  description : Option String
  image : Option String
  date : Option String
  targetAudience : Option String
  department : Option String
deriving DecidableEq

/-- JavaScript truthiness of a possibly-absent string: `undefined` and `""`
are falsy. Used by the `!field` validation checks of the handlers. -/
def truthy : Option String → Bool
  | none => false
  | some s => s ≠ ""

/-- The validation and construction part of `POST /notices`
(index.js:522-544): rejects (`none`) when any of `title`, `category`,
`description`, `date`, `targetAudience`, `department` is falsy (`image` is
not validated), otherwise builds the stored notice document. -/
def createNotice (b : NoticeBody) (now : Nat) : Option Notice :=
  if truthy b.title ∧ truthy b.category ∧ truthy b.description ∧
      truthy b.date ∧ truthy b.targetAudience ∧ truthy b.department then
    some { title := b.title, category := b.category,
           description := b.description, image := b.image, date := b.date,
           targetAudience := b.targetAudience, department := b.department,
           createdAt := some now }
  else none

/-- MongoDB `$in` on a string-or-absent field: the document matches when the
field's value occurs in the query list. `none` stands both for an absent/null
field and for a serialized JavaScript `undefined` in the query list, which the
`$in` operator treats as `null` and matches against absent fields. -/
def mongoIn (field : Option String) (vals : List (Option String)) : Bool :=
  vals.contains field

/-- The first disjunct of the `/notices` query for non-admin callers
(index.js:493): `targetAudience: { $in: ["All", req.user.userType] }`. Since
`req.user.userType` is `undefined` (see `Identity.userType`), the serialized
list is `["All", null]`. -/
def audienceClause (i : Identity) (n : Notice) : Bool :=
  mongoIn n.targetAudience [some "All", i.userType]

/-- The second disjunct of the `/notices` query for non-admin callers
(index.js:494): `department: { $in: [department] }` with `department` taken
from `req.user`. -/
def departmentClause (i : Identity) (n : Notice) : Bool :=
  mongoIn n.department [i.department]

/-- Whether a notice matches the query `GET /notices` runs for a given caller
(index.js:488-499): the empty query (matching everything) for `admin` and
`superadmin`, otherwise the `$or` of the audience and department clauses. -/
def noticeQueryMatches (i : Identity) (n : Notice) : Bool :=
  if i.adminRole = "admin" ∨ i.adminRole = "superadmin" then true
  else audienceClause i n || departmentClause i n

/-- The `GET /notices` handler after session resolution (index.js:484-507):
returns the notices matching the role-dependent query. -/
def noticesEndpoint (i : Identity) (notices : List Notice) : List Notice :=
  notices.filter (noticeQueryMatches i)

/-- The visibility predicate as the spec words it (section 4.4), for
comparison with `noticeQueryMatches`: `targetAudience ∈ {"All",
caller.userType} OR department ∈ {caller.department}`, where a caller with no
userType or no department simply never matches the respective alternative. -/
def specVisible (callerUserType : Option String) (callerDept : Option String)
    (n : Notice) : Bool :=
  (n.targetAudience == some "All" ||
    (callerUserType.isSome && n.targetAudience == callerUserType)) ||
  (callerDept.isSome && n.department == callerDept)

/-- The ownership check of `GET /users/:email` (index.js:267-275): rejects
with 403 when the requested email differs from the identity's email (strict
`!==`) and the identity's role is neither `"admin"` nor `"superadmin"`. -/
def usersGetGuard (paramEmail : String) (i : Identity) : Except Nat Unit :=
  if paramEmail ≠ i.email ∧ i.adminRole ≠ "admin" ∧ i.adminRole ≠ "superadmin"
  then .error 403
  else .ok ()

/-- The ownership check of `PATCH /users/:email` (index.js:302-310), textually
the same condition as the GET guard. -/
def usersPatchGuard (paramEmail : String) (i : Identity) : Except Nat Unit :=
  if paramEmail ≠ i.email ∧ i.adminRole ≠ "admin" ∧ i.adminRole ≠ "superadmin"
  then .error 403
  else .ok ()

/-- MongoDB `updateOne({email}, {$set: {adminRole: r}})` on the `Users`
collection: rewrite the `adminRole` field of the first document whose email
matches. -/
def setRoleFirst : List User → String → String → List User
  | [], _, _ => []
  | u :: rest, e, r =>
    if u.email = e then { u with adminRole := some r } :: rest
    else u :: setRoleFirst rest e r

/-- `updateOne` with `$set {adminRole: r}` by email, returning the new
collection and the `modifiedCount`: 0 when no document matches or the first
match already stores exactly that role (MongoDB does not rewrite an
unchanged document), 1 otherwise. -/
def updateOneRole (db : List User) (e : String) (r : String) :
    List User × Nat :=
  match db.find? (fun u => u.email = e) with
  | none => (db, 0)
  | some u =>
    if u.adminRole = some r then (db, 0) else (setRoleFirst db e r, 1)

/-- MongoDB `deleteOne({email})`: remove the first matching document. -/
def deleteFirst : List User → String → List User
  | [], _ => []
  | u :: rest, e => if u.email = e then rest else u :: deleteFirst rest e

/-- `deleteOne({email})` returning the new collection and `deletedCount`. -/
def deleteOneByEmail (db : List User) (e : String) : List User × Nat :=
  match db.find? (fun u => u.email = e) with
  | none => (db, 0)
  | some _ => (deleteFirst db e, 1)

/-- The `PATCH /users/:email/role` promotion endpoint behind
`verifySuperAdmin` (index.js:348-390), as a function from the caller's
(already session-resolved) identity and the current `Users` collection to the
response status and the resulting collection. -/
def promoteEndpoint (ident : Option Identity) (paramEmail : String)
    (db : List User) : Nat × List User :=
  match verifySuperAdmin ident with
  | .error s => (s, db)
  | .ok _ =>
    match db.find? (fun u => u.email = paramEmail) with
    | none => (404, db)
    | some u =>
      if u.adminRole = some "admin" ∨ u.adminRole = some "superadmin" then
        (400, db)
      else
        let r := updateOneRole db paramEmail "admin"
        if r.2 = 0 then (500, r.1) else (200, r.1)

/-- The `PATCH /users/:email/demote` endpoint behind `verifySuperAdmin`
(index.js:393-433): 404 when no user matches, 403 on a superadmin target,
otherwise `$set {adminRole: "user"}` with `modifiedCount = 0` mapped to 500
and success to 200. -/
def demoteEndpoint (ident : Option Identity) (paramEmail : String)
    (db : List User) : Nat × List User :=
  match verifySuperAdmin ident with
  | .error s => (s, db)
  | .ok _ =>
    match db.find? (fun u => u.email = paramEmail) with
    | none => (404, db)
    | some u =>
      if u.adminRole = some "superadmin" then (403, db)
      else
        let r := updateOneRole db paramEmail "user"
        if r.2 = 0 then (500, r.1) else (200, r.1)

/-- The `DELETE /users/:email` endpoint behind `verifyAdmin`
(index.js:436-468): 404 when no user matches, 403 on a superadmin target,
otherwise `deleteOne` with `deletedCount = 0` mapped to 500 and success to
200. -/
def deleteEndpoint (ident : Option Identity) (paramEmail : String)
    (db : List User) : Nat × List User :=
  match verifyAdmin ident with
  | .error s => (s, db)
  | .ok _ =>
    match db.find? (fun u => u.email = paramEmail) with
    | none => (404, db)
    | some u =>
      if u.adminRole = some "superadmin" then (403, db)
      else
        let r := deleteOneByEmail db paramEmail
        if r.2 = 0 then (500, r.1) else (200, r.1)

/-- The request body fields `POST /signup` destructures (index.js:200-208),
plus a free `adminRole` slot to record that whatever role a request body
carries is simply never read by the handler. -/
structure SignupBody where
  fullName : Option String
  id : Option String
  email : Option String
  userType : Option String
  designation : Option String
  department : Option String
  image : Option String
  adminRole : Option String
deriving DecidableEq

/-- The `POST /signup` handler (index.js:198-245): 400 when a required field
is falsy or the email is already registered, otherwise insert the new user
document — with `adminRole` hard-coded to `"user"` (index.js:232) — and
answer 201. -/
def signup (body : SignupBody) (db : List User) (now : Nat) :
    Nat × List User :=
  if truthy body.fullName ∧ truthy body.id ∧ truthy body.email ∧
      truthy body.userType ∧ truthy body.department then
    match body.email with
    | none => (400, db)
    | some e =>
      match db.find? (fun u => u.email = e) with
      | some _ => (400, db)
      | none =>
        let userData : User :=
          { fullName := body.fullName, id := body.id, email := e,
            userType := body.userType, department := body.department,
            image := body.image, designation := body.designation,
            createdAt := some now, adminRole := some "user",
            uid := none, emailVerified := none }
        (201, db ++ [userData])
  else (400, db)

/-- C1: for every request whose session resolution has succeeded (so
`req.user` is present), `verifyAdmin` accepts exactly the identities whose
role is `"admin"` or `"superadmin"` and answers 403 (Forbidden) for every
other role — in particular `"user"` — while `verifySuperAdmin` accepts
exactly the identities whose role is `"superadmin"` and answers 403
otherwise. -/
theorem C1_gate_ordering (i : Identity) :
    verifyAdmin (some i) =
      (if i.adminRole = "admin" ∨ i.adminRole = "superadmin" then .ok ()
       else .error 403) ∧
    verifySuperAdmin (some i) =
      (if i.adminRole = "superadmin" then .ok () else .error 403) := by
  constructor
  · by_cases h : i.adminRole = "admin" ∨ i.adminRole = "superadmin"
    · rcases h with h | h <;> simp [verifyAdmin, h]
    · push_neg at h
      simp [verifyAdmin, h.1, h.2]
  · by_cases h : i.adminRole = "superadmin" <;> simp [verifySuperAdmin, h]

/-- C2: session resolution answers 401 (Unauthenticated) exactly when the
token cookie is absent, 403 (InvalidCredential) exactly when the cookie is
present but codec verification fails, and 404 (IdentityNotFound) exactly when
the claims verify but no user record matches the claimed email — so a valid
credential referencing a deleted user yields 404, never 401. -/
theorem C2_session_resolver (tok : Option Token) (secret now : Nat)
    (db : List User) :
    (verifyToken tok secret now db = .error 401 ↔ tok = none) ∧
    (verifyToken tok secret now db = .error 403 ↔
      ∃ t, tok = some t ∧ verify t secret now = none) ∧
    (verifyToken tok secret now db = .error 404 ↔
      ∃ t c, tok = some t ∧ verify t secret now = some c ∧
        db.find? (fun u => u.email = c.email) = none) := by
  rcases tok with _ | t
  · simp [verifyToken]
  · simp only [verifyToken]
    rcases h : verify t secret now with _ | c
    · simp [h]
    · rcases hf : db.find? (fun u => u.email = c.email) with _ | u
      · simp [h, hf]
        exact fun x hx => by simpa using List.find?_eq_none.mp hf x hx
      · simp [h, hf]
        exact ⟨u, List.mem_of_find?_eq_some hf, by simpa using List.find?_some hf⟩

/-- C4: on both `GET /users/:email` and `PATCH /users/:email` the request is
authorized exactly when the requested email equals the identity's email by
exact (case-sensitive) string comparison or the caller's role is `"admin"` or
`"superadmin"`, and otherwise it fails with 403 (Forbidden). -/
theorem C4_self_or_admin (e : String) (i : Identity) :
    usersGetGuard e i =
      (if e = i.email ∨ i.adminRole = "admin" ∨ i.adminRole = "superadmin"
       then .ok () else .error 403) ∧
    usersPatchGuard e i =
      (if e = i.email ∨ i.adminRole = "admin" ∨ i.adminRole = "superadmin"
       then .ok () else .error 403) := by
  constructor <;> simp only [usersGetGuard, usersPatchGuard] <;>
    split <;> split <;> first | rfl | tauto

/-- C9: issuing a credential over any claims record and immediately verifying
it with the same secret succeeds and returns claims identical, field by
field, to those issued. -/
theorem C9_roundtrip (c : Claims) (secret ttl now : Nat) :
    verify (issue c secret ttl now) secret now = some c := by
  simp [verify, issue, Nat.le_add_right]

/-- C5: whenever the target user's stored role is `"superadmin"`, the
demotion and the deletion endpoint answer 403 (Forbidden) and leave the
collection unchanged, whatever the caller's role is: a caller below the
required gate is rejected by the gate with 403, and a caller passing the gate
is rejected by the superadmin-target check with 403, in both cases before any
write. -/
theorem C5_superadmin_immune (i : Identity) (e : String) (db : List User)
    (u : User)
    (hfind : db.find? (fun v => v.email = e) = some u)
    (hrole : u.adminRole = some "superadmin") :
    demoteEndpoint (some i) e db = (403, db) ∧
    deleteEndpoint (some i) e db = (403, db) := by
  constructor
  · by_cases hs : i.adminRole = "superadmin"
    · simp [demoteEndpoint, verifySuperAdmin, hs, hfind, hrole]
    · simp [demoteEndpoint, verifySuperAdmin, hs]
  · by_cases ha : i.adminRole = "admin" ∨ i.adminRole = "superadmin"
    · have hok : verifyAdmin (some i) = .ok () := by
        rcases ha with h | h <;> simp [verifyAdmin, h]
      simp [deleteEndpoint, hok, hfind, hrole]
    · push_neg at ha
      simp [deleteEndpoint, verifyAdmin, ha.1, ha.2]

/-- C6: for a superadmin caller, promoting a target whose stored role is
already `"admin"` or `"superadmin"` answers 400 (Conflict) — not 403 — and
leaves the collection unchanged. -/
theorem C6_promotion_conflict (i : Identity) (e : String) (db : List User)
    (u : User)
    (hi : i.adminRole = "superadmin")
    (hfind : db.find? (fun v => v.email = e) = some u)
    (hrole : u.adminRole = some "admin" ∨ u.adminRole = some "superadmin") :
    promoteEndpoint (some i) e db = (400, db) := by
  rcases hrole with h | h <;>
    simp [promoteEndpoint, verifySuperAdmin, hi, hfind, h]

/-- Sample superadmin caller identity used in concrete instantiations. -/
def saCaller : Identity :=
  { email := "root@lupulse.edu", adminRole := "superadmin", department := none }

/-- Sample stored user whose role is explicitly `"user"`. -/
def plainTarget : User :=
  { fullName := some "Tariq", id := some "011", email := "t@lupulse.edu",
    userType := some "student", department := some "CSE", image := none,
    designation := none, createdAt := none, adminRole := some "user",
    uid := none, emailVerified := none }

/-- Sample stored user whose role is `"superadmin"`. -/
def saTarget : User :=
  { fullName := some "Boss", id := some "001", email := "boss@lupulse.edu",
    userType := some "faculty", department := some "CSE", image := none,
    designation := none, createdAt := none, adminRole := some "superadmin",
    uid := none, emailVerified := none }

/-- Sample stored user whose role is `"admin"`. -/
def adminTarget : User :=
  { fullName := some "Admin", id := some "002", email := "adm@lupulse.edu",
    userType := some "faculty", department := some "EEE", image := none,
    designation := none, createdAt := none, adminRole := some "admin",
    uid := none, emailVerified := none }

/-- C5 witness: a superadmin caller demoting or deleting a superadmin target
gets 403 and the collection is unchanged. -/
theorem C5_witness :
    demoteEndpoint (some saCaller) "boss@lupulse.edu" [saTarget] =
      (403, [saTarget]) ∧
    deleteEndpoint (some saCaller) "boss@lupulse.edu" [saTarget] =
      (403, [saTarget]) :=
  C5_superadmin_immune saCaller "boss@lupulse.edu" [saTarget] saTarget
    (by decide) (by decide)

/-- C6 witness: a superadmin caller promoting a target already at `"admin"`
gets 400 and the collection is unchanged. -/
theorem C6_witness :
    promoteEndpoint (some saCaller) "adm@lupulse.edu" [adminTarget] =
      (400, [adminTarget]) :=
  C6_promotion_conflict saCaller "adm@lupulse.edu" [adminTarget] adminTarget
    (by decide) (by decide) (Or.inl (by decide))

/-- C7 counterexample: a superadmin demoting an existing target whose stored
role is already `"user"` receives 500, not the 400 the claim states — the
update matches but modifies nothing and the handler maps
`modifiedCount = 0` to Internal Server Error. -/
theorem C7_counterexample :
    demoteEndpoint (some saCaller) "t@lupulse.edu" [plainTarget] =
      (500, [plainTarget]) ∧ (500 : Nat) ≠ 400 := by
  constructor
  · decide
  · decide

/-- C7 amended: for every superadmin caller, demoting an existing target
whose stored role is already `"user"` answers 500 (InternalError), not 400 —
the no-op update reports `modifiedCount = 0` and the handler maps that to
500 — and the collection is unchanged. -/
theorem C7_noop_demote_is_500 (i : Identity) (e : String) (db : List User)
    (u : User)
    (hi : i.adminRole = "superadmin")
    (hfind : db.find? (fun v => v.email = e) = some u)
    (hrole : u.adminRole = some "user") :
    demoteEndpoint (some i) e db = (500, db) := by
  simp [demoteEndpoint, verifySuperAdmin, hi, hfind, hrole, updateOneRole]

/-- C7 witness for the amended statement: the concrete no-op demotion
answers 500 with the collection unchanged. -/
theorem C7_witness :
    demoteEndpoint (some saCaller) "t@lupulse.edu" [plainTarget] =
      (500, [plainTarget]) :=
  C7_noop_demote_is_500 saCaller "t@lupulse.edu" [plainTarget] plainTarget
    (by decide) (by decide) (by decide)

/-- C8: for an authenticated caller below admin whose department is absent,
the department clause of the notice query matches no notice the system can
create (creation validates `department` as a non-empty string, while the
caller's absent department serializes to a `$in` list containing only
`null`), so the query reduces to the audience clause alone. -/
theorem C8_no_department (i : Identity) (b : NoticeBody) (now : Nat)
    (n : Notice)
    (hdept : i.department = none)
    (hrole : i.adminRole ≠ "admin" ∧ i.adminRole ≠ "superadmin")
    (hn : createNotice b now = some n) :
    departmentClause i n = false ∧
    noticeQueryMatches i n = audienceClause i n := by
  unfold createNotice at hn
  split at hn
  case isFalse => exact absurd hn (by simp)
  case isTrue h =>
    have hbd : truthy b.department = true := h.2.2.2.2.2
    rcases hd : b.department with _ | d
    · rw [hd] at hbd
      simp [truthy] at hbd
    · have hnd : n.department = some d := by
        injection hn with hn
        rw [← hn, hd]
      have hclause : departmentClause i n = false := by
        simp [departmentClause, mongoIn, hdept, hnd]
      refine ⟨hclause, ?_⟩
      simp [noticeQueryMatches, hrole.1, hrole.2, hclause]

/-- Sample non-admin caller identity with no department on record. -/
def noDeptCaller : Identity :=
  { email := "nd@lupulse.edu", adminRole := "user", department := none }

/-- Sample valid notice-creation request body. -/
def sampleBody : NoticeBody :=
  { title := some "Midterm", category := some "Academic",
    description := some "Schedule", image := none,
    date := some "2025-01-01", targetAudience := some "student",
    department := some "CSE" }

/-- The notice document `createNotice` builds from `sampleBody` at time 0. -/
def sampleNotice : Notice :=
  { title := some "Midterm", category := some "Academic",
    description := some "Schedule", image := none,
    date := some "2025-01-01", targetAudience := some "student",
    department := some "CSE", createdAt := some 0 }

/-- C8 witness: for the concrete department-less caller and a concretely
created notice, the department clause is false and the query equals the
audience clause. -/
theorem C8_witness :
    departmentClause noDeptCaller sampleNotice = false ∧
    noticeQueryMatches noDeptCaller sampleNotice =
      audienceClause noDeptCaller sampleNotice :=
  C8_no_department noDeptCaller sampleBody 0 sampleNotice (by decide)
    (by decide) (by decide)

/-- C10: whenever signup succeeds (status 201), the collection grows by
exactly one record and that record's `adminRole` is `"user"`, whatever the
request body carried — the handler never reads a role off the body. -/
theorem C10_signup_role (body : SignupBody) (db : List User) (now : Nat)
    (db2 : List User)
    (h : signup body db now = (201, db2)) :
    ∃ newUser, db2 = db ++ [newUser] ∧ newUser.adminRole = some "user" := by
  unfold signup at h
  split at h
  case isFalse => simp at h
  case isTrue hv =>
    split at h
    · simp at h
    · split at h
      · simp at h
      · injection h with h1 h2
        exact ⟨_, h2.symm, rfl⟩

/-- Sample signup body whose `adminRole` slot even asks for `"superadmin"`. -/
def freshBody : SignupBody :=
  { fullName := some "Alice", id := some "221", email := some "alice@lupulse.edu",
    userType := some "student", designation := none,
    department := some "CSE", image := none, adminRole := some "superadmin" }

/-- C10 witness: the concrete signup that asks for `"superadmin"` in its body
still creates a record with role `"user"`. -/
theorem C10_witness :
    ∃ newUser, (signup freshBody [] 0).2 = [] ++ [newUser] ∧
      newUser.adminRole = some "user" :=
  C10_signup_role freshBody [] 0 ((signup freshBody [] 0).2) rfl

/-- Stored user record of a student in department EEE. -/
def studentUserEEE : User :=
  { fullName := some "Sami", id := some "112", email := "s@lupulse.edu",
    userType := some "student", department := some "EEE", image := none,
    designation := none, createdAt := none, adminRole := none,
    uid := none, emailVerified := none }

/-- A fresh credential for `studentUserEEE`, signed with secret 7 at time 0
with the one-hour ttl. -/
def tokenForS : Token :=
  issue { uid := none, email := "s@lupulse.edu", emailVerified := some true,
          adminRole := none, department := some "EEE" } 7 3600 0

/-- A notice targeted at the `"student"` audience, department CSE. -/
def studentNotice : Notice :=
  { title := some "Exam", category := some "Academic",
    description := some "Midterm schedule", image := none,
    date := some "2025-01-01", targetAudience := some "student",
    department := some "CSE", createdAt := none }

/-- C3: evaluation of the code at the divergence point. Session resolution
for the EEE student succeeds but produces an identity without any `userType`
property, so the notices query — which reads `req.user.userType` — matches a
notice against `targetAudience ∈ \x7b"All", undefined\x7d` and returns
nothing for a notice whose `targetAudience` equals the caller's actual user
type `"student"`; the specified predicate, evaluated with the caller's
stored userType, says the notice is visible. -/
theorem C3_userType_lost :
    verifyToken (some tokenForS) 7 0 [studentUserEEE] =
      .ok { email := "s@lupulse.edu", adminRole := "user",
            department := some "EEE" } ∧
    noticesEndpoint
      { email := "s@lupulse.edu", adminRole := "user",
        department := some "EEE" } [studentNotice] = [] ∧
    specVisible (some "student") (some "EEE") studentNotice = true := by
  refine ⟨rfl, by decide, by decide⟩

end LuPulse
